import Mathlib

/-!
Shallow embedding of the rsfts full-text search engine (Rust sources under
src/src/) for checking the natural-language specification against the code.

Modelling conventions:
- Rust String values that flow through the text-analysis pipeline are
  modelled as List Char; document ids stay Lean String.
- std HashMap is modelled as an association list with replace-on-insert
  semantics (mapGet, mapInsert); iteration-order-dependent results are only
  used set-wise, exactly as the source uses them.
- f64 corpus statistics (avg_doc_length) are modelled as exact rationals;
  the BM25 scorer, which needs the natural logarithm, is modelled over the
  reals.  Fallible storage operations are modelled by explicit fault flags,
  and the slice-taking pagination step, which can panic in Rust, returns an
  Option.
- char::is_alphanumeric, str::to_lowercase and the rust_stemmers stemmer
  are external to this repository; the Tokenizer structure carries them as
  components, mirroring the source struct that owns a Stemmer.
-/

/-- Association-list lookup, modelling HashMap::get. -/
def mapGet {κ α : Type} [DecidableEq κ] : List (κ × α) → κ → Option α
  | [], _ => none
  | (k1, v) :: rest, k => if k1 = k then some v else mapGet rest k

/-- Association-list insert-or-replace, modelling HashMap::insert. -/
def mapInsert {κ α : Type} [DecidableEq κ] : List (κ × α) → κ → α → List (κ × α)
  | [], k, v => [(k, v)]
  | (k1, v1) :: rest, k, v =>
      if k1 = k then (k1, v) :: rest else (k1, v1) :: mapInsert rest k v

/-- Association-list removal, modelling HashMap::remove. -/
def mapRemove {κ α : Type} [DecidableEq κ] (m : List (κ × α)) (k : κ) : List (κ × α) :=
  m.filter (fun p => decide (p.1 ≠ k))

/-- Increment the counter stored under a key, inserting 1 when absent:
models entry(k).or_insert(0) += 1 from Tokenizer::analyze_with_frequencies. -/
def mapIncr {κ : Type} [DecidableEq κ] : List (κ × Nat) → κ → List (κ × Nat)
  | [], k => [(k, 1)]
  | (k1, v) :: rest, k =>
      if k1 = k then (k1, v + 1) :: rest else (k1, v) :: mapIncr rest k

/-- Keys of an association list. -/
def mapKeys {κ α : Type} (m : List (κ × α)) : List κ := m.map Prod.fst

/-- Sum of the stored counters of a frequency map. -/
def mapValuesSum {κ : Type} (m : List (κ × Nat)) : Nat := (m.map Prod.snd).sum

/-- The apostrophe code point U+0027, written numerically. -/
def apo : Char := Char.ofNat 39

/-- The space code point U+0020. -/
def spaceChar : Char := Char.ofNat 32

/-- Tokenizer component container.  The source Tokenizer owns a
rust_stemmers Stemmer; is_alphanumeric and to_lowercase come from the Rust
standard library.  All three are external to this repository, so they are
carried as abstract components of the structure. -/
structure Tokenizer where
  isAlnum : Char → Bool
  lower : List Char → List Char
  stem : List Char → List Char

/-- The built-in English stopword set from src/src/tokenizer.rs, verbatim. -/
def STOPWORDS : List (List Char) := [
  "a".data, "about".data, "above".data, "after".data, "again".data,
  "against".data, "all".data, "am".data, "an".data, "and".data,
  "any".data, "are".data, "aren".data ++ apo :: "t".data, "as".data, "at".data,
  "be".data, "because".data, "been".data, "before".data, "being".data,
  "below".data, "between".data, "both".data, "but".data, "by".data,
  "can".data ++ apo :: "t".data, "cannot".data, "could".data,
  "couldn".data ++ apo :: "t".data,
  "did".data, "didn".data ++ apo :: "t".data, "do".data, "does".data,
  "doesn".data ++ apo :: "t".data, "doing".data,
  "don".data ++ apo :: "t".data, "down".data, "during".data,
  "each".data, "few".data, "for".data, "from".data, "further".data,
  "had".data, "hadn".data ++ apo :: "t".data, "has".data,
  "hasn".data ++ apo :: "t".data,
  "have".data, "haven".data ++ apo :: "t".data, "having".data, "he".data,
  "he".data ++ apo :: "d".data, "he".data ++ apo :: "ll".data,
  "he".data ++ apo :: "s".data, "her".data, "here".data,
  "here".data ++ apo :: "s".data, "hers".data, "herself".data, "him".data,
  "himself".data, "his".data, "how".data, "how".data ++ apo :: "s".data,
  "i".data,
  "i".data ++ apo :: "d".data, "i".data ++ apo :: "ll".data,
  "i".data ++ apo :: "m".data, "i".data ++ apo :: "ve".data,
  "if".data, "in".data, "into".data, "is".data,
  "isn".data ++ apo :: "t".data, "it".data, "it".data ++ apo :: "s".data,
  "its".data, "itself".data, "let".data ++ apo :: "s".data, "me".data,
  "more".data, "most".data, "mustn".data ++ apo :: "t".data, "my".data,
  "myself".data,
  "no".data, "nor".data, "not".data, "of".data, "off".data, "on".data,
  "once".data, "only".data, "or".data, "other".data, "ought".data,
  "our".data, "ours".data, "ourselves".data, "out".data, "over".data,
  "own".data, "same".data, "shan".data ++ apo :: "t".data, "she".data,
  "she".data ++ apo :: "d".data, "she".data ++ apo :: "ll".data,
  "she".data ++ apo :: "s".data, "should".data,
  "shouldn".data ++ apo :: "t".data, "so".data, "some".data, "such".data,
  "than".data, "that".data, "that".data ++ apo :: "s".data, "the".data,
  "their".data, "theirs".data, "them".data, "themselves".data,
  "then".data, "there".data, "there".data ++ apo :: "s".data, "these".data,
  "they".data, "they".data ++ apo :: "d".data,
  "they".data ++ apo :: "ll".data, "they".data ++ apo :: "re".data,
  "they".data ++ apo :: "ve".data, "this".data, "those".data,
  "through".data, "to".data, "too".data, "under".data, "until".data,
  "up".data,
  "very".data, "was".data, "wasn".data ++ apo :: "t".data, "we".data,
  "we".data ++ apo :: "d".data, "we".data ++ apo :: "ll".data,
  "we".data ++ apo :: "re".data, "we".data ++ apo :: "ve".data,
  "were".data,
  "weren".data ++ apo :: "t".data, "what".data,
  "what".data ++ apo :: "s".data, "when".data,
  "when".data ++ apo :: "s".data, "where".data,
  "where".data ++ apo :: "s".data, "which".data,
  "while".data, "who".data, "who".data ++ apo :: "s".data, "whom".data,
  "why".data, "why".data ++ apo :: "s".data, "with".data,
  "won".data ++ apo :: "t".data, "would".data,
  "wouldn".data ++ apo :: "t".data, "you".data,
  "you".data ++ apo :: "d".data, "you".data ++ apo :: "ll".data,
  "you".data ++ apo :: "re".data, "you".data ++ apo :: "ve".data,
  "your".data, "yours".data,
  "yourself".data, "yourselves".data ]

/-- One step of the character fold in Tokenizer::tokenize: an alphanumeric
code point is pushed onto the last token in progress; a separator closes a
non-empty token in progress by starting a fresh empty one. -/
def tokenizeStep (tk : Tokenizer) (tokens : List (List Char)) (c : Char) :
    List (List Char) :=
  if tk.isAlnum c then
    match tokens.getLast? with
    | some last => tokens.dropLast ++ [last ++ [c]]
    | none => tokens
  else if ((tokens.getLast?).map (fun s => !s.isEmpty)).getD false then
    tokens ++ [[]]
  else
    tokens

/-- Tokenizer::tokenize - fold over the characters starting from one empty
token in progress, then drop empty tokens. -/
def Tokenizer.tokenize (tk : Tokenizer) (text : List Char) : List (List Char) :=
  (text.foldl (tokenizeStep tk) [[]]).filter (fun s => !s.isEmpty)

/-- Tokenizer::lowercase_filter. -/
def Tokenizer.lowercase_filter (tk : Tokenizer) (tokens : List (List Char)) :
    List (List Char) :=
  tokens.map tk.lower

/-- Tokenizer::stopword_filter - keep tokens not in the stopword set. -/
def Tokenizer.stopword_filter (_tk : Tokenizer) (tokens : List (List Char)) :
    List (List Char) :=
  tokens.filter (fun t => decide (t ∉ STOPWORDS))

/-- Tokenizer::stemmer_filter. -/
def Tokenizer.stemmer_filter (tk : Tokenizer) (tokens : List (List Char)) :
    List (List Char) :=
  tokens.map tk.stem

/-- Tokenizer::analyze - the four-stage pipeline. -/
def Tokenizer.analyze (tk : Tokenizer) (text : List Char) : List (List Char) :=
  tk.stemmer_filter (tk.stopword_filter (tk.lowercase_filter (tk.tokenize text)))

/-- Tokenizer::analyze_with_frequencies - count occurrences of each analyzed
term. -/
def Tokenizer.analyze_with_frequencies (tk : Tokenizer) (text : List Char) :
    List (List Char × Nat) :=
  (tk.analyze text).foldl mapIncr []

/-- The inverted index from src/src/index.rs: token to posting list, plus a
document counter. -/
structure InvertedIndex where
  index : List (List Char × List String)
  doc_count : Nat
deriving DecidableEq

/-- InvertedIndex::new. -/
def InvertedIndex.new : InvertedIndex := { index := [], doc_count := 0 }

/-- Append a document id to the posting list of one token unless already
present, creating the entry when absent (the entry/or_insert/push body of
InvertedIndex::add_document). -/
def addPosting : List (List Char × List String) → List Char → String →
    List (List Char × List String)
  | [], token, docId => [(token, [docId])]
  | (t, docs) :: rest, token, docId =>
      if t = token then
        (t, if docId ∈ docs then docs else docs ++ [docId]) :: rest
      else
        (t, docs) :: addPosting rest token docId

/-- InvertedIndex::add_document: posting-list update for each distinct
token, then an unconditional increment of doc_count. -/
def InvertedIndex.add_document (idx : InvertedIndex) (docId : String)
    (tokens : List (List Char)) : InvertedIndex :=
  { index := tokens.dedup.foldl (fun m t => addPosting m t docId) idx.index,
    doc_count := idx.doc_count + 1 }

/-- InvertedIndex::remove_document: drop the id from every posting list,
decrement doc_count saturating at zero (Nat subtraction), drop empty
lists. -/
def InvertedIndex.remove_document (idx : InvertedIndex) (docId : String) :
    InvertedIndex :=
  { index := (idx.index.map (fun p => (p.1, p.2.filter (fun id => decide (id ≠ docId))))).filter
      (fun p => !p.2.isEmpty),
    doc_count := idx.doc_count - 1 }

/-- InvertedIndex::update_document = remove then add. -/
def InvertedIndex.update_document (idx : InvertedIndex) (docId : String)
    (tokens : List (List Char)) : InvertedIndex :=
  (idx.remove_document docId).add_document docId tokens

/-- InvertedIndex::get_documents. -/
def InvertedIndex.get_documents (idx : InvertedIndex) (token : List Char) :
    Option (List String) :=
  mapGet idx.index token

/-- InvertedIndex::doc_frequency. -/
def InvertedIndex.doc_frequency (idx : InvertedIndex) (token : List Char) : Nat :=
  ((idx.get_documents token).map List.length).getD 0

/-- InvertedIndex::total_documents. -/
def InvertedIndex.total_documents (idx : InvertedIndex) : Nat := idx.doc_count

/-- The loop body of InvertedIndex::search_and: None models the running
result before the first term, and the early return on a missing term is
modelled by an outer Option (none = returned empty). -/
def searchAndAux (idx : InvertedIndex) :
    List (List Char) → Option (List String) → Option (List String)
  | [], acc => acc
  | t :: ts, acc =>
      match idx.get_documents t with
      | none => none
      | some docs =>
          match acc with
          | none => searchAndAux idx ts (some docs)
          | some r => searchAndAux idx ts (some (r.filter (fun d => decide (d ∈ docs))))

/-- InvertedIndex::search_and: intersect the posting lists of all tokens;
empty token list or any missing token gives the empty result.  HashSet
intersection is modelled by a membership filter (set semantics). -/
def InvertedIndex.search_and (idx : InvertedIndex) (tokens : List (List Char)) :
    List String :=
  if tokens.isEmpty then []
  else (searchAndAux idx tokens none).getD []

/-- InvertedIndex::search_or: union of posting lists, modelled as a fold
that extends the accumulated set with unseen ids. -/
def InvertedIndex.search_or (idx : InvertedIndex) (tokens : List (List Char)) :
    List String :=
  tokens.foldl
    (fun acc t =>
      ((idx.get_documents t).getD []).foldl
        (fun a d => if d ∈ a then a else a ++ [d]) acc)
    []

/-- IndexStats from src/src/index.rs (average as an exact rational). -/
structure IndexStats where
  total_documents : Nat
  total_tokens : Nat
  avg_docs_per_token : ℚ
deriving DecidableEq

/-- InvertedIndex::stats. -/
def InvertedIndex.stats (idx : InvertedIndex) : IndexStats :=
  { total_documents := idx.doc_count,
    total_tokens := idx.index.length,
    avg_docs_per_token :=
      if idx.index.isEmpty then 0
      else ((idx.index.map (fun p => p.2.length)).sum : ℚ) / (idx.index.length : ℚ) }

/-- Document from src/src/document.rs. -/
structure Document where
  id : String
  title : List Char
  content : List Char
  url : Option (List Char)
  metadata : List (List Char × List Char)
deriving DecidableEq

/-- Document::searchable_text = title, a space, then content. -/
def Document.searchable_text (doc : Document) : List Char :=
  doc.title ++ spaceChar :: doc.content

/-- DocStats from src/src/document.rs. -/
structure DocStats where
  id : String
  length : Nat
  term_frequencies : List (List Char × Nat)
deriving DecidableEq

/-- The contents of the sled database, one association list per tree
(documents, doc_stats) and the single-key index tree. -/
structure StorageState where
  docs : List (String × Document)
  stats : List (String × DocStats)
  indexBlob : Option InvertedIndex
deriving DecidableEq

/-- The in-memory engine state from src/src/engine.rs: storage plus the
three lock-guarded fields.  The f64 average is modelled as an exact
rational. -/
structure EngineState where
  storage : StorageState
  index : InvertedIndex
  doc_stats : List (String × DocStats)
  avg_doc_length : ℚ
deriving DecidableEq

/-- SearchEngine::in_memory - fresh empty engine. -/
def emptyEngine : EngineState :=
  { storage := { docs := [], stats := [], indexBlob := none },
    index := InvertedIndex.new,
    doc_stats := [],
    avg_doc_length := 0 }

/-- Fault flags for the three fallible storage writes performed by
SearchEngine::upsert_document, in program order. -/
structure StorageFaults where
  failSaveIndex : Bool
  failSaveDoc : Bool
  failSaveStats : Bool
deriving DecidableEq

/-- All storage writes succeed. -/
def noFaults : StorageFaults :=
  { failSaveIndex := false, failSaveDoc := false, failSaveStats := false }

/-- The avg_doc_length recomputation in upsert_document and
delete_document: 0 on an empty stats map, else sum of lengths over count. -/
def recomputeAvg (statsMap : List (String × DocStats)) : ℚ :=
  if statsMap.isEmpty then 0
  else (((statsMap.map (fun p => p.2.length)).sum : ℕ) : ℚ) / ((statsMap.length : ℕ) : ℚ)

/-- SearchEngine::upsert_document with fault injection.  Returns the state
reached together with true on success, false when the failed storage write
made the function return an error early (the question-mark operator); the
mutations performed before the failure remain in the returned state. -/
def upsertDocument (tk : Tokenizer) (f : StorageFaults) (s : EngineState)
    (doc : Document) : EngineState × Bool :=
  let searchable := doc.searchable_text
  let tokens := tk.analyze searchable
  let termFreqs := tk.analyze_with_frequencies searchable
  let docStats : DocStats :=
    { id := doc.id, length := tokens.length, term_frequencies := termFreqs }
  let idx1 := s.index.update_document doc.id tokens
  let s1 := { s with index := idx1 }
  if f.failSaveIndex then (s1, false)
  else
    let s2 := { s1 with storage := { s1.storage with indexBlob := some idx1 } }
    let statsMap := mapInsert s2.doc_stats doc.id docStats
    let s3 := { s2 with doc_stats := statsMap, avg_doc_length := recomputeAvg statsMap }
    if f.failSaveDoc then (s3, false)
    else
      let s4 := { s3 with storage :=
        { s3.storage with docs := mapInsert s3.storage.docs doc.id doc } }
      if f.failSaveStats then (s4, false)
      else
        ({ s4 with storage :=
          { s4.storage with stats := mapInsert s4.storage.stats doc.id docStats } }, true)

/-- SearchEngine::delete_document (storage writes taken as succeeding):
remove from the index, persist it, drop the stats entry, recompute the
average, delete the payload and stats rows. -/
def deleteDocument (s : EngineState) (docId : String) : EngineState :=
  let idx1 := s.index.remove_document docId
  let statsMap := mapRemove s.doc_stats docId
  { storage :=
      { docs := mapRemove s.storage.docs docId,
        stats := mapRemove s.storage.stats docId,
        indexBlob := some idx1 },
    index := idx1,
    doc_stats := statsMap,
    avg_doc_length := recomputeAvg statsMap }

/-- SearchEngine::clear: fresh index, cleared stats map, dropped storage
trees.  Note that the cached avg_doc_length field is not touched. -/
def clearEngine (s : EngineState) : EngineState :=
  { storage := { docs := [], stats := [], indexBlob := none },
    index := InvertedIndex.new,
    doc_stats := [],
    avg_doc_length := s.avg_doc_length }

/-- SearchMode from src/src/engine.rs. -/
inductive SearchMode where
  | and : SearchMode
  | or : SearchMode
deriving DecidableEq

/-- SearchOptions from src/src/engine.rs. -/
structure SearchOptions where
  mode : SearchMode
  use_ranking : Bool
  limit : Option Nat
  offset : Nat
deriving DecidableEq

/-- BM25 parameter pair from src/src/ranking.rs. -/
structure BM25 where
  k1 : ℝ
  b : ℝ

/-- BM25::default with k1 = 1.5 and b = 0.75. -/
noncomputable def BM25.default : BM25 := { k1 := 3 / 2, b := 3 / 4 }

/-- The body of the scoring loop of BM25::score for one query term,
accumulating into the running score.  f64 arithmetic is modelled over the
reals; the tf == 0.0 skip and the doc_freq > 0.0 guard are the source
branches. -/
noncomputable def bm25TermStep (p : BM25) (ds : DocStats) (idx : InvertedIndex)
    (avgLen : ℝ) (score : ℝ) (term : List Char) : ℝ :=
  let tf : ℝ := (((mapGet ds.term_frequencies term).getD 0 : Nat) : ℝ)
  if tf = 0 then score
  else
    let docLength : ℝ := (ds.length : ℝ)
    let totalDocs : ℝ := (idx.total_documents : ℝ)
    let docFreq : ℝ := (idx.doc_frequency term : ℝ)
    let idf : ℝ :=
      if docFreq > 0 then
        Real.log ((totalDocs - docFreq + 1 / 2) / (docFreq + 1 / 2) + 1)
      else 0
    let normalizedTf : ℝ :=
      tf * (p.k1 + 1) / (tf + p.k1 * (1 - p.b + p.b * (docLength / avgLen)))
    score + idf * normalizedTf

/-- BM25::score - fold of the term loop over the query terms. -/
noncomputable def BM25.score (p : BM25) (queryTerms : List (List Char))
    (ds : DocStats) (idx : InvertedIndex) (avgLen : ℝ) : ℝ :=
  queryTerms.foldl (bm25TermStep p ds idx avgLen) 0

/-- ScoredDocument from src/src/ranking.rs. -/
structure ScoredDocument where
  doc_id : String
  score : ℝ

/-- The descending-score comparator of rank_documents
(b.score.partial_cmp(a.score), NaN-free over the reals). -/
noncomputable def scoreDescending (a b : ScoredDocument) : Bool :=
  decide (b.score ≤ a.score)

/-- rank_documents from src/src/ranking.rs: score the candidates that have
a stats entry (candidates without one are skipped), then sort by score
descending. -/
noncomputable def rank_documents (queryTerms : List (List Char))
    (candidates : List String) (statsMap : List (String × DocStats))
    (idx : InvertedIndex) (avgLen : ℝ) : List ScoredDocument :=
  let scored := candidates.filterMap (fun docId =>
    (mapGet statsMap docId).map (fun ds =>
      { doc_id := docId, score := BM25.default.score queryTerms ds idx avgLen }))
  scored.mergeSort scoreDescending

/-- SearchResult from src/src/engine.rs. -/
structure SearchResult where
  documents : List Document
  total : Nat
  scores : Option (List ℝ)

/-- The candidate set of SearchEngine::search for the analyzed query. -/
def searchCandidates (s : EngineState) (queryTokens : List (List Char))
    (mode : SearchMode) : List String :=
  match mode with
  | SearchMode.and => s.index.search_and queryTokens
  | SearchMode.or => s.index.search_or queryTokens

/-- SearchEngine::search.  The pagination step slices
sorted_ids[offset..end] with end = min(offset+limit, len) (or len without a
limit); in Rust that slice panics when offset exceeds end, which is
modelled by returning none.  end never exceeds the list length by
construction.  Documents missing from storage are silently skipped. -/
noncomputable def searchE (tk : Tokenizer) (s : EngineState)
    (query : List Char) (opts : SearchOptions) : Option SearchResult :=
  let queryTokens := tk.analyze query
  if queryTokens.isEmpty then
    some { documents := [], total := 0, scores := none }
  else
    let candidateIds := searchCandidates s queryTokens opts.mode
    let total := candidateIds.length
    let ranked : List String × Option (List ℝ) :=
      if opts.use_ranking then
        let scoredDocs := rank_documents queryTokens candidateIds s.doc_stats
          s.index (s.avg_doc_length : ℝ)
        (scoredDocs.map ScoredDocument.doc_id, some (scoredDocs.map ScoredDocument.score))
      else
        (candidateIds, none)
    let start := opts.offset
    let stop :=
      match opts.limit with
      | some l => min (start + l) ranked.1.length
      | none => ranked.1.length
    if start ≤ stop then
      let pageIds := (ranked.1.drop start).take (stop - start)
      let pageScores := ranked.2.map (fun sc => (sc.drop start).take (stop - start))
      some { documents := pageIds.filterMap (fun id => mapGet s.storage.docs id),
             total := total,
             scores := pageScores }
    else
      none

/-- Modelled from the spec: the BM25 score as written in the claim and in
spec section 4.5 - the sum over query terms with positive frequency of
idf(t) times the normalized term frequency, with the idf formula applied
unconditionally and k1 = 1.5, b = 0.75. -/
noncomputable def specBM25Score (queryTerms : List (List Char)) (ds : DocStats)
    (idx : InvertedIndex) (avgLen : ℝ) : ℝ :=
  (queryTerms.map (fun term =>
    let tf : ℝ := (((mapGet ds.term_frequencies term).getD 0 : Nat) : ℝ)
    if 0 < tf then
      Real.log (((idx.total_documents : ℝ) - (idx.doc_frequency term : ℝ) + 1 / 2) /
          ((idx.doc_frequency term : ℝ) + 1 / 2) + 1) *
        (tf * (3 / 2 + 1) /
          (tf + 3 / 2 * (1 - 3 / 4 + 3 / 4 * ((ds.length : ℝ) / avgLen))))
    else 0)).sum

/-- Modelled from the spec, amended: the same sum, but a term that is
absent from the index (document frequency zero) contributes zero - the
guard the source places in front of the idf computation. -/
noncomputable def specBM25ScoreGuarded (queryTerms : List (List Char)) (ds : DocStats)
    (idx : InvertedIndex) (avgLen : ℝ) : ℝ :=
  (queryTerms.map (fun term =>
    let tf : ℝ := (((mapGet ds.term_frequencies term).getD 0 : Nat) : ℝ)
    if 0 < tf then
      (if 0 < (idx.doc_frequency term : ℝ) then
        Real.log (((idx.total_documents : ℝ) - (idx.doc_frequency term : ℝ) + 1 / 2) /
          ((idx.doc_frequency term : ℝ) + 1 / 2) + 1)
      else 0) *
        (tf * (3 / 2 + 1) /
          (tf + 3 / 2 * (1 - 3 / 4 + 3 / 4 * ((ds.length : ℝ) / avgLen))))
    else 0)).sum

/-- Concrete tokenizer instance for the evaluated counterexamples: ASCII
alphanumeric test, identity lowercasing and stemming. -/
def tk0 : Tokenizer :=
  { isAlnum := Char.isAlphanum, lower := id, stem := id }

/-- Document id fixture. -/
def idA : String := "a"

/-- Document id fixture. -/
def idB : String := "b"

/-- The single analyzed term of the fixture documents. -/
def xTok : List Char := ['x']

/-- Fixture document with id a and analyzed text consisting of the single
token x. -/
def docA : Document :=
  { id := "a", title := ['x'], content := [], url := none, metadata := [] }

/-- Fixture document with id b and analyzed text consisting of the single
token y. -/
def docB : Document :=
  { id := "b", title := ['y'], content := [], url := none, metadata := [] }

/-- Engine state after upserting docA into a fresh engine with all storage
writes succeeding. -/
def sA : EngineState := (upsertDocument tk0 noFaults emptyEngine docA).1

/-- Stats entry matching docA. -/
def dsA : DocStats := { id := "a", length := 1, term_frequencies := [(xTok, 1)] }

/-- Engine state with one indexed, stored document a matching the token x:
used to drive the pagination counterexample. -/
def sC2 : EngineState :=
  { storage := { docs := [(idA, docA)], stats := [(idA, dsA)], indexBlob := none },
    index := { index := [(xTok, [idA])], doc_count := 1 },
    doc_stats := [(idA, dsA)],
    avg_doc_length := 1 }

/-- Unranked search options asking for offset 2 with limit 10. -/
def optsOffsetTwo : SearchOptions :=
  { mode := SearchMode.and, use_ranking := false, limit := some 10, offset := 2 }

/-- Unranked search options asking for offset 1 with limit 10. -/
def optsOffsetOne : SearchOptions :=
  { mode := SearchMode.and, use_ranking := false, limit := some 10, offset := 1 }

/-- Fault pattern where only the save_document write fails. -/
def faultsSaveDoc : StorageFaults :=
  { failSaveIndex := false, failSaveDoc := true, failSaveStats := false }

/-- Result of upserting docA into a fresh engine when the save_document
write fails. -/
def rC5 : EngineState × Bool := upsertDocument tk0 faultsSaveDoc emptyEngine docA

/-- Query-term fixture for the BM25 counterexample. -/
def qsX : List (List Char) := [xTok]

/-- DocStats fixture whose frequency for x is 2 with document length 2. -/
def dsX : DocStats := { id := "c", length := 2, term_frequencies := [(xTok, 2)] }

/-- Index fixture reporting one document but with no posting list for x. -/
def idxX : InvertedIndex := { index := [], doc_count := 1 }

/-- Characters of the word don. -/
def donChars : List Char := "don".data

/-- Characters of the word t. -/
def tChars : List Char := "t".data

/-- The text don-apostrophe-t. -/
def donAposT : List Char := donChars ++ apo :: tChars

/-- The second analyzed token fixture. -/
def yTok : List Char := ['y']

/-- Engine-shaped state whose index lists candidate b for token x although b
has no doc-stats entry: drives the witness for the candidate-dropping
behaviour of ranked search. -/
def sC9 : EngineState :=
  { storage := { docs := [(idA, docA)], stats := [(idA, dsA)], indexBlob := none },
    index := { index := [(xTok, [idA, idB])], doc_count := 2 },
    doc_stats := [(idA, dsA)],
    avg_doc_length := 1 }

/-- Membership in the running intersection maintained by searchAndAux: a
document is in the final result exactly when it is in the accumulator and
in the posting list of every remaining token. -/
theorem searchAndAux_some_mem (idx : InvertedIndex) :
    ∀ (ts : List (List Char)) (r : List String) (d : String),
      d ∈ ((searchAndAux idx ts (some r)).getD []) ↔
        d ∈ r ∧ ∀ t ∈ ts, d ∈ (idx.get_documents t).getD [] := by
  intro ts
  induction ts with
  | nil => intro r d; simp [searchAndAux]
  | cons t ts ih =>
    intro r d
    simp only [searchAndAux]
    cases h : idx.get_documents t with
    | none => simp [h]
    | some docs =>
      simp only [h]
      rw [ih]
      simp [h, List.mem_filter, and_assoc]

/-- Incrementing a frequency map raises the sum of its counters by one. -/
theorem mapValuesSum_mapIncr {κ : Type} [DecidableEq κ] (k : κ) :
    ∀ m : List (κ × Nat), mapValuesSum (mapIncr m k) = mapValuesSum m + 1 := by
  intro m
  induction m with
  | nil => simp [mapIncr, mapValuesSum]
  | cons p rest ih =>
    obtain ⟨k1, v⟩ := p
    by_cases h : k1 = k
    · simp [mapIncr, h, mapValuesSum]
      all_goals omega
    · simp [mapIncr, h, mapValuesSum] at ih ⊢
      all_goals omega

/-- Incrementing a frequency map adds exactly the incremented key to its
key set. -/
theorem mem_mapKeys_mapIncr {κ : Type} [DecidableEq κ] (k t : κ) :
    ∀ m : List (κ × Nat), t ∈ mapKeys (mapIncr m k) ↔ t = k ∨ t ∈ mapKeys m := by
  intro m
  induction m with
  | nil => simp [mapIncr, mapKeys]
  | cons p rest ih =>
    obtain ⟨k1, v⟩ := p
    by_cases h : k1 = k
    · subst h; simp [mapIncr, mapKeys]
    · simp [mapIncr, h, mapKeys] at ih ⊢
      all_goals tauto

/-- Folding a token list into a frequency map adds the list length to the
sum of counters. -/
theorem foldl_mapIncr_sum {κ : Type} [DecidableEq κ] :
    ∀ (l : List κ) (m : List (κ × Nat)),
      mapValuesSum (l.foldl mapIncr m) = mapValuesSum m + l.length := by
  intro l
  induction l with
  | nil => intro m; simp
  | cons a l ih =>
    intro m
    rw [List.foldl_cons, ih, mapValuesSum_mapIncr]
    simp
    omega

/-- Folding a token list into a frequency map unions the list elements into
the key set. -/
theorem foldl_mapIncr_keys {κ : Type} [DecidableEq κ] (t : κ) :
    ∀ (l : List κ) (m : List (κ × Nat)),
      t ∈ mapKeys (l.foldl mapIncr m) ↔ t ∈ mapKeys m ∨ t ∈ l := by
  intro l
  induction l with
  | nil => intro m; simp
  | cons a l ih =>
    intro m
    rw [List.foldl_cons, ih, mem_mapKeys_mapIncr]
    simp
    tauto

/-- The tokenize fold preserves the invariant that every accumulated token
consists of characters accepted by the alphanumeric test. -/
theorem tokenizeFold_alnum (tk : Tokenizer) :
    ∀ (text : List Char) (acc : List (List Char)),
      (∀ tok ∈ acc, ∀ c ∈ tok, tk.isAlnum c = true) →
      ∀ tok ∈ text.foldl (tokenizeStep tk) acc, ∀ c ∈ tok, tk.isAlnum c = true := by
  intro text
  induction text with
  | nil => intro acc h; simpa using h
  | cons c cs ih =>
    intro acc hacc
    rw [List.foldl_cons]
    apply ih
    intro tok htok ch hch
    unfold tokenizeStep at htok
    by_cases hc : tk.isAlnum c = true
    · rw [if_pos hc] at htok
      cases hl : acc.getLast? with
      | none => rw [hl] at htok; exact hacc tok htok ch hch
      | some last =>
        rw [hl] at htok
        rcases List.mem_append.mp htok with h1 | h2
        · exact hacc tok (List.mem_of_mem_dropLast h1) ch hch
        · simp only [List.mem_singleton] at h2
          subst h2
          rcases List.mem_append.mp hch with hcl | hcc
          · have hlast : last ∈ acc := by
              obtain ⟨hne, heq⟩ :=
                List.mem_getLast?_eq_getLast (show last ∈ acc.getLast? from hl)
              rw [heq]; exact List.getLast_mem hne
            exact hacc last hlast ch hcl
          · simp only [List.mem_singleton] at hcc
            subst hcc; exact hc
    · rw [if_neg hc] at htok
      by_cases h2 : (((acc.getLast?).map (fun s => !s.isEmpty)).getD false) = true
      · rw [if_pos h2] at htok
        rcases List.mem_append.mp htok with h3 | h4
        · exact hacc tok h3 ch hch
        · simp only [List.mem_singleton] at h4
          subst h4; simp at hch
      · rw [if_neg h2] at htok
        exact hacc tok htok ch hch

/-- One BM25 term step splits into the incoming score plus the fresh
contribution of the term. -/
theorem bm25TermStep_shift (p : BM25) (ds : DocStats) (idx : InvertedIndex)
    (avgLen : ℝ) (a : ℝ) (t : List Char) :
    bm25TermStep p ds idx avgLen a t = a + bm25TermStep p ds idx avgLen 0 t := by
  unfold bm25TermStep
  dsimp only
  split_ifs <;> ring

/-- The BM25 scoring fold equals the initial value plus the sum of the
per-term contributions. -/
theorem bm25_score_foldl (p : BM25) (ds : DocStats) (idx : InvertedIndex) (avgLen : ℝ) :
    ∀ (qs : List (List Char)) (a : ℝ),
      qs.foldl (bm25TermStep p ds idx avgLen) a =
        a + (qs.map (bm25TermStep p ds idx avgLen 0)).sum := by
  intro qs
  induction qs with
  | nil => intro a; simp
  | cons t qs ih =>
    intro a
    rw [List.foldl_cons, ih, List.map_cons, List.sum_cons,
      bm25TermStep_shift p ds idx avgLen a t]
    ring

/-- The ids of the scored documents built by rank_documents before sorting
are exactly the candidates that have a stats entry, in order. -/
theorem scored_ids_eq (qs : List (List Char)) (statsMap : List (String × DocStats))
    (idx : InvertedIndex) (avgLen : ℝ) :
    ∀ cands : List String,
      ((cands.filterMap (fun docId => (mapGet statsMap docId).map (fun ds =>
          ({ doc_id := docId,
             score := BM25.default.score qs ds idx avgLen } : ScoredDocument)))).map
        ScoredDocument.doc_id)
      = cands.filter (fun id => (mapGet statsMap id).isSome) := by
  intro cands
  induction cands with
  | nil => simp
  | cons c cs ih =>
    cases h : mapGet statsMap c with
    | none => simp [List.filterMap_cons, h, List.filter_cons, ih]
    | some ds => simp [List.filterMap_cons, h, List.filter_cons, ih]

/-- C1: the claim says an upsert of a new id increments doc_count (reported
as stats().total_documents) by exactly 1.  The code violates it: update
calls remove_document first, which decrements doc_count even when the id is
absent, so upserting the fresh id b into an engine that already indexes a
leaves total_documents at 1 instead of 2, although b is indexed (its token
has document frequency 1). -/
theorem c1_upsert_new_id_doc_count_stays_one :
    sA.index.total_documents = 1 ∧
    (upsertDocument tk0 noFaults sA docB).1.index.total_documents = 1 ∧
    (upsertDocument tk0 noFaults sA docB).1.index.doc_frequency yTok = 1 := by
  decide

/-- C2: the claim says a search with offset beyond the candidate count
returns successfully with an empty page.  The code slices
sorted_ids[offset..end] with end = min(offset+limit, len), which panics
(modelled as none) as soon as offset exceeds len: with one candidate,
offset 2 panics while the boundary offset 1 still returns the empty page
with total 1. -/
theorem c2_offset_beyond_candidates_panics :
    searchE tk0 sC2 xTok optsOffsetTwo = none ∧
    searchE tk0 sC2 xTok optsOffsetOne =
      some { documents := [], total := 1, scores := none } := by
  exact ⟨rfl, rfl⟩

/-- C3: the claim says delete of an absent id has no observable effect
and decrements doc_count only when the id was present.  The code violates
it: deleting the absent id b from an engine holding only a leaves the
stats map untouched but still decrements doc_count from 1 to 0. -/
theorem c3_delete_absent_id_decrements_doc_count :
    sA.index.total_documents = 1 ∧
    (deleteDocument sA idB).index.total_documents = 0 ∧
    (deleteDocument sA idB).doc_stats = sA.doc_stats := by
  decide

/-- C4: the claim says avg_doc_length equals the mean document length at
every observable point and in particular is 0 after clear().  The code
violates it: clear() resets the index and the stats registry but never
touches the cached avg_doc_length, which keeps its stale value 1 while the
registry is empty. -/
theorem c4_clear_leaves_stale_avg_doc_length :
    (clearEngine sA).doc_stats = [] ∧
    (clearEngine sA).index.total_documents = 0 ∧
    (clearEngine sA).avg_doc_length = 1 := by
  refine ⟨by decide, by decide, ?_⟩
  have h : (clearEngine sA).avg_doc_length = ((1 : ℕ) : ℚ) / ((1 : ℕ) : ℚ) := rfl
  rw [h]
  norm_num

/-- C5: the claim says a failed upsert leaves the engine fully applied or
not applied at all.  The code violates it: when the save_document write
fails, upsert returns an error with the in-memory index already containing
the document's token and the in-memory stats entry present, while the
document payload is absent from storage - a partially applied state. -/
theorem c5_failed_upsert_observable_partial_state :
    rC5.2 = false ∧
    rC5.1.index.doc_frequency xTok = 1 ∧
    (mapGet rC5.1.doc_stats idA).isSome = true ∧
    mapGet rC5.1.storage.docs idA = none := by
  decide

/-- C6: search_and returns exactly the set-intersection of the posting
lists of all the terms - a document id is in the result precisely when the
term list is non-empty and the id occurs in the posting list of every term;
in particular an absent term (empty posting list) or an empty term list
yields the empty result. -/
theorem c6_search_and_is_posting_intersection (idx : InvertedIndex)
    (ts : List (List Char)) (d : String) :
    d ∈ idx.search_and ts ↔ ts ≠ [] ∧ ∀ t ∈ ts, d ∈ (idx.get_documents t).getD [] := by
  cases ts with
  | nil => simp [InvertedIndex.search_and]
  | cons t ts =>
    simp only [InvertedIndex.search_and, List.isEmpty_cons, if_false, Bool.false_eq_true]
    simp only [searchAndAux]
    cases h : idx.get_documents t with
    | none => simp [h]
    | some docs =>
      simp only [h]
      rw [searchAndAux_some_mem]
      simp [h]

/-- C6 witness: in the one-document fixture state, document a is returned
by the conjunctive search for its token. -/
theorem c6_search_and_witness : idA ∈ sC2.index.search_and [xTok] :=
  (c6_search_and_is_posting_intersection sC2.index [xTok] idA).mpr (by decide)

/-- C7 counterexample: the claim applies the idf formula to every query
term with positive frequency, but for a term missing from the index
(document frequency 0) the code forces idf to 0 while the claimed formula
gives ln(2N+1) > 0: with one reported document, frequency 2, length 2 and
average length 2 the code scores 0 and the claimed formula scores
ln(4) times 10/7. -/
theorem c7_score_deviates_from_spec_formula :
    BM25.default.score qsX dsX idxX 2 ≠ specBM25Score qsX dsX idxX 2 := by
  have hcode : BM25.default.score qsX dsX idxX 2 = 0 := by
    unfold BM25.score qsX
    rw [List.foldl_cons, List.foldl_nil]
    unfold bm25TermStep
    norm_num [dsX, idxX, mapGet, InvertedIndex.doc_frequency,
      InvertedIndex.get_documents, InvertedIndex.total_documents]
  have hspec : specBM25Score qsX dsX idxX 2 = Real.log 4 * (10 / 7) := by
    unfold specBM25Score qsX
    rw [List.map_cons, List.map_nil, List.sum_cons, List.sum_nil]
    norm_num [dsX, idxX, mapGet, InvertedIndex.doc_frequency,
      InvertedIndex.get_documents, InvertedIndex.total_documents]
  rw [hcode, hspec]
  have hpos : 0 < Real.log 4 * (10 / 7) :=
    mul_pos (Real.log_pos (by norm_num)) (by norm_num)
  exact hpos.ne

/-- C7 amended: the computed BM25 score equals the claimed sum once the idf
factor of a term with zero document frequency is taken as 0 (the guard the
source places before the idf computation); terms with zero frequency in
the document contribute 0, k1 = 1.5 and b = 0.75. -/
theorem c7_score_equals_guarded_spec_formula (qs : List (List Char)) (ds : DocStats)
    (idx : InvertedIndex) (avgLen : ℝ) :
    BM25.default.score qs ds idx avgLen = specBM25ScoreGuarded qs ds idx avgLen := by
  unfold BM25.score specBM25ScoreGuarded
  rw [bm25_score_foldl, zero_add]
  congr 1
  apply List.map_congr_left
  intro t _
  unfold bm25TermStep BM25.default
  dsimp only
  by_cases h : (((mapGet ds.term_frequencies t).getD 0 : Nat) : ℝ) = 0
  · rw [if_pos h, if_neg]
    intro hlt
    exact absurd h (ne_of_gt hlt)
  · have hpos : 0 < (((mapGet ds.term_frequencies t).getD 0 : Nat) : ℝ) :=
      lt_of_le_of_ne (Nat.cast_nonneg _) (Ne.symm h)
    rw [if_neg h, if_pos hpos, zero_add]

/-- C7 amended witness: the two sides agree on the counterexample inputs as
well. -/
theorem c7_guarded_formula_witness :
    BM25.default.score qsX dsX idxX 2 = specBM25ScoreGuarded qsX dsX idxX 2 :=
  c7_score_equals_guarded_spec_formula qsX dsX idxX 2

/-- C8: for every tokenizer instance and input text, the sum of the values
of analyze_with_frequencies equals the length of analyze, and the key set
of analyze_with_frequencies equals the element set of analyze. -/
theorem c8_frequencies_consistent_with_analyze (tk : Tokenizer) (text : List Char) :
    mapValuesSum (tk.analyze_with_frequencies text) = (tk.analyze text).length ∧
    ∀ t, t ∈ mapKeys (tk.analyze_with_frequencies text) ↔ t ∈ tk.analyze text := by
  constructor
  · unfold Tokenizer.analyze_with_frequencies
    rw [foldl_mapIncr_sum]
    simp [mapValuesSum]
  · intro t
    unfold Tokenizer.analyze_with_frequencies
    rw [foldl_mapIncr_keys]
    simp [mapKeys]

/-- C8 witness: the consistency instantiated at the concrete tokenizer and
the text don-apostrophe-t. -/
theorem c8_frequencies_witness :
    mapValuesSum (tk0.analyze_with_frequencies donAposT) =
      (tk0.analyze donAposT).length :=
  (c8_frequencies_consistent_with_analyze tk0 donAposT).1

/-- C9: in every ranked search only candidates with a doc-stats entry
survive into the scored results - the ids produced by rank_documents are a
permutation of the candidates filtered to those with a stats entry - while
the reported total always counts the full candidate set, dropped ids
included. -/
theorem c9_missing_stats_dropped_but_counted :
    (∀ (qs : List (List Char)) (cands : List String)
        (statsMap : List (String × DocStats)) (idx : InvertedIndex) (avgLen : ℝ),
      ((rank_documents qs cands statsMap idx avgLen).map ScoredDocument.doc_id).Perm
        (cands.filter (fun id => (mapGet statsMap id).isSome))) ∧
    (∀ (tk : Tokenizer) (s : EngineState) (q : List Char) (opts : SearchOptions),
      (searchE tk s q opts).map SearchResult.total =
        (searchE tk s q opts).map (fun _ =>
          if (tk.analyze q).isEmpty then 0
          else (searchCandidates s (tk.analyze q) opts.mode).length)) := by
  constructor
  · intro qs cands statsMap idx avgLen
    unfold rank_documents
    refine ((List.mergeSort_perm _ scoreDescending).map ScoredDocument.doc_id).trans ?_
    rw [scored_ids_eq]
  · intro tk s q opts
    unfold searchE
    by_cases hq : (tk.analyze q).isEmpty
    · simp [hq]
    · rw [Bool.not_eq_true] at hq
      simp only [hq, Bool.false_eq_true, if_false]
      split
      · simp
      · simp

/-- C9 witness: in the fixture state whose index lists candidate b without
a stats entry, the ranked ids are a permutation of the candidates filtered
to only a. -/
theorem c9_dropping_witness :
    ((rank_documents [xTok] [idA, idB] sC9.doc_stats sC9.index 1).map
        ScoredDocument.doc_id).Perm
      (([idA, idB] : List String).filter (fun id => (mapGet sC9.doc_stats id).isSome)) :=
  c9_missing_stats_dropped_but_counted.1 [xTok] [idA, idB] sC9.doc_stats sC9.index 1

/-- C10: every token produced by tokenize is a non-empty run of characters
accepted by the alphanumeric test; therefore, when the apostrophe is not
alphanumeric and lowercasing introduces no apostrophe, the stopword-set
entries containing an apostrophe never equal any lowercased token; and the
text don-apostrophe-t analyzes to the two tokens don and t (for a stemmer
and lowercaser fixing those two words). -/
theorem c10_tokens_alnum_and_apostrophe_stopwords_unmatched (tk : Tokenizer)
    (h1 : tk.isAlnum apo = false)
    (h2 : ∀ s : List Char, apo ∉ s → apo ∉ tk.lower s)
    (hd : tk.isAlnum 'd' = true) (ho : tk.isAlnum 'o' = true)
    (hn : tk.isAlnum 'n' = true) (ht : tk.isAlnum 't' = true)
    (hl1 : tk.lower donChars = donChars) (hl2 : tk.lower tChars = tChars)
    (hs1 : tk.stem donChars = donChars) (hs2 : tk.stem tChars = tChars) :
    (∀ (text : List Char), ∀ tok ∈ tk.tokenize text,
        tok ≠ [] ∧ ∀ c ∈ tok, tk.isAlnum c = true) ∧
    (∀ (text : List Char) (w : List Char), ∀ tok ∈ tk.lowercase_filter (tk.tokenize text),
        w ∈ STOPWORDS → apo ∈ w → tok ≠ w) ∧
    tk.analyze donAposT = [donChars, tChars] := by
  have ha : ∀ (text : List Char), ∀ tok ∈ tk.tokenize text,
      tok ≠ [] ∧ ∀ c ∈ tok, tk.isAlnum c = true := by
    intro text tok htok
    unfold Tokenizer.tokenize at htok
    rw [List.mem_filter] at htok
    obtain ⟨hmem, hne⟩ := htok
    constructor
    · intro hnil; subst hnil; simp at hne
    · intro c hc
      refine tokenizeFold_alnum tk text [[]] ?_ tok hmem c hc
      intro tok2 h2m c2 hc2
      simp only [List.mem_singleton] at h2m
      subst h2m
      simp at hc2
  refine ⟨ha, ?_, ?_⟩
  · intro text w tok htok hw hapo
    unfold Tokenizer.lowercase_filter at htok
    rw [List.mem_map] at htok
    obtain ⟨t0, ht0, rfl⟩ := htok
    intro heq
    have halnum := (ha text t0 ht0).2
    have hnoapo : apo ∉ t0 := by
      intro hin
      have hcontra := halnum apo hin
      rw [h1] at hcontra
      exact Bool.false_ne_true hcontra
    have hlow : apo ∉ tk.lower t0 := h2 t0 hnoapo
    rw [heq] at hlow
    exact hlow hapo
  · have e1 : donChars = ['d', 'o', 'n'] := by decide
    have e2 : tChars = ['t'] := by decide
    have hm1 : (decide ((['d', 'o', 'n'] : List Char) ∉ STOPWORDS)) = true := by decide
    have hm2 : (decide ((['t'] : List Char) ∉ STOPWORDS)) = true := by decide
    have hstep : donAposT = ['d', 'o', 'n', apo, 't'] := by decide
    rw [e1] at hl1 hs1
    rw [e2] at hl2 hs2
    rw [hstep, e1, e2]
    simp only [Tokenizer.analyze, Tokenizer.tokenize, List.foldl_cons, List.foldl_nil,
      tokenizeStep, h1, hd, ho, hn, ht, if_true, if_false, Bool.false_eq_true]
    norm_num [List.getLast?, List.getLast, List.dropLast]
    simp [Tokenizer.lowercase_filter, Tokenizer.stopword_filter, Tokenizer.stemmer_filter,
      List.filter, hl1, hl2, hs1, hs2, hm1, hm2]

/-- C10 witness: the concrete ASCII tokenizer instance rejects the
apostrophe as alphanumeric and analyzes the text don-apostrophe-t to the
two tokens don and t. -/
theorem c10_tokens_witness :
    tk0.isAlnum apo = false ∧ tk0.analyze donAposT = [donChars, tChars] :=
  ⟨by decide,
    (c10_tokens_alnum_and_apostrophe_stopwords_unmatched tk0 (by decide) (fun s h => h)
      (by decide) (by decide) (by decide) (by decide) rfl rfl rfl rfl).2.2⟩
